import Mathlib

/-!
Verification development for the QR code generator worker
(`src/index.ts`).  The request handler (`fetch`), the SVG renderer
(`generateSVG`) and the validation helper (`isValidHexColor`) are
shallowly embedded below.  JavaScript semantics that the handler relies
on are embedded explicitly: `parseInt`, the falsy-string behaviour of
`||` on `searchParams.get`, and `encodeURIComponent`.  Machine floats in
the renderer are modelled by exact rationals; the decimal formatting of
numbers is abstracted by a fixed injective rendering into ASCII
characters, which is all the stated properties depend on.
-/

namespace QRGen

/-! ### Decimal rendering of numbers (ASCII) -/

/-- Decimal digit characters of a natural number, most significant first. -/
def natChars (n : ℕ) : List Char :=
  if _h : n < 10 then [Nat.digitChar n]
  else natChars (n / 10) ++ [Nat.digitChar (n % 10)]
termination_by n
decreasing_by exact Nat.div_lt_self (by omega) (by omega)

/-- Decimal string of a natural number. -/
def natStr (n : ℕ) : String := String.mk (natChars n)

/-- Decimal string of an integer. -/
def intStr (i : ℤ) : String :=
  if i < 0 then "-" ++ natStr i.natAbs else natStr i.natAbs

/-- Rendering of a rational coordinate as a string.  JavaScript prints
the float64 value in decimal; here the exact rational is printed either
as an integer or as a numerator/denominator pair.  The properties below
only use that this rendering is a fixed function into ASCII. -/
def numStr (q : ℚ) : String :=
  if q.den = 1 then intStr q.num
  else intStr q.num ++ "/" ++ natStr q.den

/-! ### JavaScript `parseInt` -/

/-- JavaScript whitespace accepted (and skipped) by `parseInt`. -/
def isJsSpace (c : Char) : Bool :=
  [9, 10, 11, 12, 13, 32].contains c.toNat

/-- Numeric value of a hexadecimal digit character, if it is one. -/
def hexVal (c : Char) : Option ℕ :=
  if 48 ≤ c.toNat ∧ c.toNat ≤ 57 then some (c.toNat - 48)
  else if 65 ≤ c.toNat ∧ c.toNat ≤ 70 then some (c.toNat - 55)
  else if 97 ≤ c.toNat ∧ c.toNat ≤ 102 then some (c.toNat - 87)
  else none

/-- Accumulate the value of a list of decimal digit characters. -/
def decVal (l : List Char) : ℕ :=
  l.foldl (fun a c => 10 * a + (c.toNat - 48)) 0

/-- Accumulate the value of a list of hexadecimal digit characters. -/
def hexAccum (l : List Char) : ℕ :=
  l.foldl (fun a c => 16 * a + ((hexVal c).getD 0)) 0

/-- Test for a decimal digit character. -/
def isDecDigit (c : Char) : Bool :=
  48 ≤ c.toNat && c.toNat ≤ 57

/-- Test for a hexadecimal digit character. -/
def isHexDigit (c : Char) : Bool :=
  isDecDigit c || (65 ≤ c.toNat && c.toNat ≤ 70) || (97 ≤ c.toNat && c.toNat ≤ 102)

/-- Magnitude part of JavaScript `parseInt` with unspecified radix: a
leading `0x`/`0X` switches to hexadecimal, otherwise the longest prefix
of decimal digits is read; no digits at all gives `NaN` (`none`). -/
def parseIntCore (l : List Char) : Option ℕ :=
  match l with
  | c0 :: c1 :: rest =>
    if c0.toNat = 48 ∧ (c1.toNat = 120 ∨ c1.toNat = 88) then
      let ds := rest.takeWhile isHexDigit
      if ds = [] then none else some (hexAccum ds)
    else
      let ds := (c0 :: c1 :: rest).takeWhile isDecDigit
      if ds = [] then none else some (decVal ds)
  | _ =>
    let ds := l.takeWhile isDecDigit
    if ds = [] then none else some (decVal ds)

/-- JavaScript `parseInt(s)`: skip leading whitespace, read an optional
sign, then the magnitude; `NaN` is modelled as `none`. -/
def parseIntJS (s : String) : Option ℤ :=
  match s.data.dropWhile isJsSpace with
  | [] => none
  | c :: rest =>
    if c.toNat = 45 then (parseIntCore rest).map (fun n => -(Int.ofNat n))
    else if c.toNat = 43 then (parseIntCore rest).map Int.ofNat
    else (parseIntCore (c :: rest)).map Int.ofNat

/-! ### `encodeURIComponent` and percent-decoding -/

/-- Characters that `encodeURIComponent` leaves unescaped:
alphanumerics and `-\x5f.!~*'()`. -/
def isUnreservedURI (c : Char) : Bool :=
  (65 ≤ c.toNat && c.toNat ≤ 90) || (97 ≤ c.toNat && c.toNat ≤ 122) ||
  (48 ≤ c.toNat && c.toNat ≤ 57) ||
  [45, 95, 46, 33, 126, 42, 39, 40, 41].contains c.toNat

/-- UTF-8 encoding of a single character as a list of byte values. -/
def utf8Bytes (c : Char) : List ℕ :=
  let n := c.toNat
  if n < 128 then [n]
  else if n < 2048 then [192 + n / 64, 128 + n % 64]
  else if n < 65536 then [224 + n / 4096, 128 + (n / 64) % 64, 128 + n % 64]
  else [240 + n / 262144, 128 + (n / 4096) % 64, 128 + (n / 64) % 64, 128 + n % 64]

/-- Uppercase hexadecimal digit character for a value below 16. -/
def hexUpper (m : ℕ) : Char :=
  if m < 10 then Char.ofNat (48 + m) else Char.ofNat (55 + m)

/-- Percent-escape of one byte, `%XX` with uppercase hex digits. -/
def pctEncodeByte (b : ℕ) : List Char :=
  [Char.ofNat 37, hexUpper (b / 16), hexUpper (b % 16)]

/-- Encoding of one character under `encodeURIComponent`. -/
def encodeChar (c : Char) : List Char :=
  if isUnreservedURI c then [c] else (utf8Bytes c).flatMap pctEncodeByte

/-- JavaScript `encodeURIComponent`. -/
def encodeURIComponent (s : String) : String :=
  String.mk (s.data.flatMap encodeChar)

mutual

/-- Modelled from the spec: URL percent-decoding (the
`decodeURIComponent` builtin used by the caller to recover the SVG from
the data URL), restricted to single-byte UTF-8 sequences.  The
renderer's output is ASCII, so multi-byte sequences never arise in the
round-trip property. -/
def pctDecode : List Char → Option (List Char)
  | [] => some []
  | c :: rest =>
    if c.toNat = 37 then pctDecodeEsc rest
    else (pctDecode rest).map fun l => c :: l
termination_by l => (l.length, 0)

/-- Decoding of the two hex digits that must follow a percent sign,
then of the remainder. -/
def pctDecodeEsc : List Char → Option (List Char)
  | h1 :: h2 :: rest2 =>
    match hexVal h1, hexVal h2, pctDecode rest2 with
    | some a, some b, some l =>
      if 16 * a + b < 128 then some (Char.ofNat (16 * a + b) :: l) else none
    | _, _, _ => none
  | _ => none
termination_by l => (l.length, 1)

end

/-- ASCII-ness of a character list: every code point below 128. -/
def asciiList (l : List Char) : Prop := ∀ c ∈ l, c.toNat < 128

/-! ### Validation helper -/

/-- Validates a 6-hex-digit color string without a leading hash
(the regex `[0-9A-Fa-f]` repeated exactly six times, anchored). -/
def isValidHexColor (color : String) : Bool :=
  color.data.length = 6 && color.data.all isHexDigit

/-! ### The QR matrix and the SVG renderer -/

/-- The external encoder's matrix: side length and dark-cell query. -/
structure QrMatrix where
  moduleCount : ℕ
  isDark : ℕ → ℕ → Bool

/-- One emitted foreground rectangle (exact rational coordinates). -/
structure SvgRect where
  x : ℚ
  y : ℚ
  w : ℚ
  h : ℚ
deriving DecidableEq

/-- The module size used by the renderer:
`size / (moduleCount + 2 * borderWidth)`. -/
def moduleSizeQ (size : ℤ) (moduleCount : ℕ) (bw : ℤ) : ℚ :=
  (size : ℚ) / ((moduleCount : ℚ) + 2 * (bw : ℚ))

/-- The rectangles emitted by the renderer's row-major double loop:
one per dark cell, at `((col+bw)·ms, (row+bw)·ms)` with side `ms`. -/
def rectsFor (qr : QrMatrix) (ms : ℚ) (bw : ℤ) : List SvgRect :=
  (List.range qr.moduleCount).flatMap fun row =>
    (List.range qr.moduleCount).filterMap fun col =>
      if qr.isDark row col then
        some ⟨((col : ℚ) + (bw : ℚ)) * ms, ((row : ℚ) + (bw : ℚ)) * ms, ms, ms⟩
      else none

/-- Serialization of one foreground rectangle. -/
def rectStr (fg : String) (r : SvgRect) : String :=
  "<rect x=\"" ++ numStr r.x ++ "\" y=\"" ++ numStr r.y ++
  "\" width=\"" ++ numStr r.w ++ "\" height=\"" ++ numStr r.h ++
  "\" fill=\"#" ++ fg ++ "\"/>"

/-- The opening `<svg>` tag with viewBox, width and height all `size`. -/
def svgHeader (size : ℤ) : String :=
  "<svg xmlns=\"http://www.w3.org/2000/svg\" viewBox=\"0 0 " ++ intStr size ++
  " " ++ intStr size ++ "\" width=\"" ++ intStr size ++
  "\" height=\"" ++ intStr size ++ "\">"

/-- The full-canvas background rectangle. -/
def bgRectStr (bg : String) : String :=
  "<rect width=\"100%\" height=\"100%\" fill=\"#" ++ bg ++ "\"/>"

/-- The SVG renderer `generateSVG`: header, background, one rectangle
per dark module in row-major order, closing tag. -/
def generateSVG (qr : QrMatrix) (size : ℤ) (fg bg : String) (bw : ℤ) : String :=
  let ms := moduleSizeQ size qr.moduleCount bw
  svgHeader size ++ bgRectStr bg ++
  String.join ((rectsFor qr ms bw).map (rectStr fg)) ++ "</svg>"

/-- Number of dark cells of the matrix. -/
def darkCount (qr : QrMatrix) : ℕ :=
  ((List.range qr.moduleCount).map fun row =>
    ((List.range qr.moduleCount).filter fun col => qr.isDark row col).length).sum

/-! ### The request handler -/

/-- The query parameters of a request; `none` models an absent
parameter (`searchParams.get` returning `null`). -/
structure Query where
  url : Option String := none
  size : Option String := none
  fgColor : Option String := none
  bgColor : Option String := none
  ecLevel : Option String := none
  borderWidth : Option String := none
  format : Option String := none
deriving DecidableEq

/-- JavaScript `get(...) || default`: the default replaces both `null`
and the falsy empty string. -/
def orDefault (o : Option String) (d : String) : String :=
  match o with
  | none => d
  | some s => if s = "" then d else s

/-- The encoded text: `url.searchParams.get('url') || 'https://example.com'`. -/
def urlOf (q : Query) : String := orDefault q.url "https://example.com"

/-- The size value: `sizeParam ? parseInt(sizeParam) : 300` (the falsy
empty string also selects the default); `none` models `NaN`. -/
def sizeParsed (q : Query) : Option ℤ :=
  match q.size with
  | none => some 300
  | some s => if s = "" then some 300 else parseIntJS s

/-- The foreground color string after the default. -/
def fgOf (q : Query) : String := orDefault q.fgColor "000000"

/-- The background color string after the default. -/
def bgOf (q : Query) : String := orDefault q.bgColor "FFFFFF"

/-- The error-correction level string after the default. -/
def ecOf (q : Query) : String := orDefault q.ecLevel "M"

/-- The border width value: `borderWidthParam ? parseInt(borderWidthParam) : 4`. -/
def bwParsed (q : Query) : Option ℤ :=
  match q.borderWidth with
  | none => some 4
  | some s => if s = "" then some 4 else parseIntJS s

/-- JavaScript `toLowerCase()` on the ASCII values a format string can
usefully take: lower-case every basic latin letter. -/
def jsToLower (s : String) : String := String.mk (s.data.map Char.toLower)

/-- The format string: `get('format')?.toLowerCase() || 'svg'`. -/
def formatOf (q : Query) : String := orDefault (q.format.map jsToLower) "svg"

/-- An HTTP response: status, body, header list. -/
structure Response where
  status : ℕ
  body : String
  headers : List (String × String)
deriving DecidableEq

/-- A plain 400 response (status 400, the message as body, no headers). -/
def errResp (msg : String) : Response := ⟨400, msg, []⟩

/-- Body of the 400 response for a bad size. -/
def sizeMsg : String := "Error: Size must be between 100 and 1000"

/-- Body of the 400 response for a bad color. -/
def colorMsg : String := "Error: Invalid color format. Use hex format without #"

/-- Body of the 400 response for a bad error-correction level. -/
def ecMsg : String := "Error: Error correction level must be L, M, Q, or H"

/-- Body of the 400 response for a bad border width. -/
def bwMsg : String := "Error: Border width must be between 0 and 20"

/-- Body of the 400 response for a bad format. -/
def fmtMsg : String := "Error: Format must be svg or png"

/-- Headers of the SVG success response. -/
def svgHeaders : List (String × String) :=
  [("Content-Type", "image/svg+xml"),
   ("Cache-Control", "public, max-age=86400"),
   ("Access-Control-Allow-Origin", "*"),
   ("Access-Control-Allow-Methods", "GET"),
   ("Content-Disposition", "attachment; filename=\"qrcode.svg\"")]

/-- Headers of the JSON success response. -/
def jsonHeaders : List (String × String) :=
  [("Content-Type", "application/json"),
   ("Cache-Control", "public, max-age=86400"),
   ("Access-Control-Allow-Origin", "*"),
   ("Access-Control-Allow-Methods", "GET")]

/-- The data URL wrapping an SVG string. -/
def dataUrlFor (svg : String) : String :=
  "data:image/svg+xml;charset=UTF-8," ++ encodeURIComponent svg

/-- JSON body produced by `JSON.stringify` on the one-field `dataUrl`
object.  The data URL contains no character that `JSON.stringify`
escapes (its alphabet is percent-escapes and unreserved URI characters),
so stringification is plain quoting. -/
def jsonBody (svg : String) : String :=
  "\x7b\"dataUrl\":\"" ++ dataUrlFor svg ++ "\"\x7d"

/-- The external encoder: text and error-correction level to either a
matrix or a thrown value.  A thrown value is `some message` for an
`Error` carrying a message and `none` for a non-`Error` throw. -/
def Encoder : Type := String → String → Except (Option String) QrMatrix

/-- The worker's `fetch` handler, validation-first in source order:
size, colors, error-correction level, border width, format; then the
encoder runs inside `try`, and the response is shaped by format. -/
def fetch (q : Query) (enc : Encoder) : Response :=
  match sizeParsed q with
  | none => errResp sizeMsg
  | some size =>
    if size < 100 ∨ 1000 < size then errResp sizeMsg
    else if !isValidHexColor (fgOf q) || !isValidHexColor (bgOf q) then errResp colorMsg
    else if !(["L", "M", "Q", "H"].contains (ecOf q)) then errResp ecMsg
    else
      match bwParsed q with
      | none => errResp bwMsg
      | some bw =>
        if bw < 0 ∨ 20 < bw then errResp bwMsg
        else if !(["svg", "png"].contains (formatOf q)) then errResp fmtMsg
        else
          match enc (urlOf q) (ecOf q) with
          | .error e =>
            ⟨500, "Error generating QR code: " ++ e.getD "Unknown error occurred", []⟩
          | .ok qr =>
            if formatOf q = "svg" then
              ⟨200, generateSVG qr size (fgOf q) (bgOf q) bw, svgHeaders⟩
            else
              ⟨200, jsonBody (generateSVG qr size (fgOf q) (bgOf q) bw), jsonHeaders⟩

/-! ### Validation predicates (named for the statements below) -/

/-- The size check passes. -/
def sizeOK (q : Query) : Bool :=
  match sizeParsed q with
  | none => false
  | some n => decide (100 ≤ n ∧ n ≤ 1000)

/-- Both color checks pass. -/
def colorsOK (q : Query) : Bool :=
  isValidHexColor (fgOf q) && isValidHexColor (bgOf q)

/-- The error-correction level check passes. -/
def ecOK (q : Query) : Bool := ["L", "M", "Q", "H"].contains (ecOf q)

/-- The border width check passes. -/
def bwOK (q : Query) : Bool :=
  match bwParsed q with
  | none => false
  | some n => decide (0 ≤ n ∧ n ≤ 20)

/-- The format check passes. -/
def fmtOK (q : Query) : Bool := ["svg", "png"].contains (formatOf q)

/-- All validations pass. -/
def validQuery (q : Query) : Bool :=
  sizeOK q && colorsOK q && ecOK q && bwOK q && fmtOK q

/-- The message of the earliest failing validation, in source order. -/
def firstError (q : Query) : Option String :=
  if !sizeOK q then some sizeMsg
  else if !colorsOK q then some colorMsg
  else if !ecOK q then some ecMsg
  else if !bwOK q then some bwMsg
  else if !fmtOK q then some fmtMsg
  else none

/-- The validated size value (meaningful when `sizeOK`). -/
def sizeVal (q : Query) : ℤ := (sizeParsed q).getD 0

/-- The validated border width value (meaningful when `bwOK`). -/
def bwVal (q : Query) : ℤ := (bwParsed q).getD 0

/-! ### Concrete fixtures used by witnesses and counterexamples -/

/-- A small concrete matrix standing in for an encoder result. -/
def matTest : QrMatrix := ⟨2, fun r c => (r + c) % 2 == 0⟩

/-- An encoder that always succeeds with `matTest`. -/
def encTest : Encoder := fun _ _ => .ok matTest

/-- An encoder that always throws an `Error` with a message. -/
def encFailMsg : Encoder := fun _ _ => .error (some "code length overflow")

/-- An encoder that always throws a messageless (non-`Error`) value. -/
def encFailNone : Encoder := fun _ _ => .error none

/-! ### Handler-shape lemmas -/

theorem fetch_sizeBad (q : Query) (enc : Encoder) (h : sizeOK q = false) :
    fetch q enc = errResp sizeMsg := by
  unfold fetch
  unfold sizeOK at h
  rcases hs : sizeParsed q with _ | n
  · simp [hs]
  · rw [hs] at h
    simp only [decide_eq_false_iff_not] at h
    simp only [hs]
    rw [if_pos (by omega)]

theorem fetch_colorBad (q : Query) (enc : Encoder) (h1 : sizeOK q = true)
    (h2 : colorsOK q = false) : fetch q enc = errResp colorMsg := by
  unfold fetch
  unfold sizeOK at h1
  unfold colorsOK at h2
  rcases hs : sizeParsed q with _ | n
  · rw [hs] at h1; exact absurd h1 (by simp)
  · rw [hs] at h1
    simp only [decide_eq_true_eq] at h1
    simp only [hs]
    rw [if_neg (by omega), if_pos (by simp only [Bool.and_eq_false_iff] at h2; rcases h2 with h2 | h2 <;> simp [h2])]

theorem fetch_ecBad (q : Query) (enc : Encoder) (h1 : sizeOK q = true)
    (h2 : colorsOK q = true) (h3 : ecOK q = false) : fetch q enc = errResp ecMsg := by
  unfold fetch
  unfold sizeOK at h1
  unfold colorsOK at h2
  unfold ecOK at h3
  rcases hs : sizeParsed q with _ | n
  · rw [hs] at h1; exact absurd h1 (by simp)
  · rw [hs] at h1
    simp only [decide_eq_true_eq] at h1
    simp only [Bool.and_eq_true] at h2
    simp only [hs]
    rw [if_neg (by omega), if_neg (by simp [h2.1, h2.2]), if_pos (by simp only [h3]; simp)]

theorem fetch_bwBad (q : Query) (enc : Encoder) (h1 : sizeOK q = true)
    (h2 : colorsOK q = true) (h3 : ecOK q = true) (h4 : bwOK q = false) :
    fetch q enc = errResp bwMsg := by
  unfold fetch
  unfold sizeOK at h1
  unfold colorsOK at h2
  unfold ecOK at h3
  unfold bwOK at h4
  rcases hs : sizeParsed q with _ | n
  · rw [hs] at h1; exact absurd h1 (by simp)
  · rw [hs] at h1
    simp only [decide_eq_true_eq] at h1
    simp only [Bool.and_eq_true] at h2
    simp only [hs]
    rw [if_neg (by omega), if_neg (by simp [h2.1, h2.2]), if_neg (by simp only [h3]; simp)]
    rcases hb : bwParsed q with _ | m
    · simp [hb]
    · rw [hb] at h4
      simp only [decide_eq_false_iff_not] at h4
      simp only [hb]
      rw [if_pos (by omega)]

theorem fetch_fmtBad (q : Query) (enc : Encoder) (h1 : sizeOK q = true)
    (h2 : colorsOK q = true) (h3 : ecOK q = true) (h4 : bwOK q = true)
    (h5 : fmtOK q = false) : fetch q enc = errResp fmtMsg := by
  unfold fetch
  unfold sizeOK at h1
  unfold colorsOK at h2
  unfold ecOK at h3
  unfold bwOK at h4
  unfold fmtOK at h5
  rcases hs : sizeParsed q with _ | n
  · rw [hs] at h1; exact absurd h1 (by simp)
  · rw [hs] at h1
    simp only [decide_eq_true_eq] at h1
    simp only [Bool.and_eq_true] at h2
    simp only [hs]
    rw [if_neg (by omega), if_neg (by simp [h2.1, h2.2]), if_neg (by simp only [h3]; simp)]
    rcases hb : bwParsed q with _ | m
    · rw [hb] at h4; exact absurd h4 (by simp)
    · rw [hb] at h4
      simp only [decide_eq_true_eq] at h4
      simp only [hb]
      rw [if_neg (by omega), if_pos (by simp only [h5]; simp)]

theorem fetch_valid (q : Query) (enc : Encoder) (h : validQuery q = true) :
    fetch q enc =
      match enc (urlOf q) (ecOf q) with
      | .error e =>
        ⟨500, "Error generating QR code: " ++ e.getD "Unknown error occurred", []⟩
      | .ok qr =>
        if formatOf q = "svg" then
          ⟨200, generateSVG qr (sizeVal q) (fgOf q) (bgOf q) (bwVal q), svgHeaders⟩
        else
          ⟨200, jsonBody (generateSVG qr (sizeVal q) (fgOf q) (bgOf q) (bwVal q)),
            jsonHeaders⟩ := by
  simp only [validQuery, Bool.and_eq_true] at h
  obtain ⟨⟨⟨⟨h1, h2⟩, h3⟩, h4⟩, h5⟩ := h
  unfold fetch
  unfold sizeOK at h1
  unfold colorsOK at h2
  unfold ecOK at h3
  unfold bwOK at h4
  unfold fmtOK at h5
  rcases hs : sizeParsed q with _ | n
  · rw [hs] at h1; exact absurd h1 (by simp)
  · rw [hs] at h1
    simp only [decide_eq_true_eq] at h1
    simp only [Bool.and_eq_true] at h2
    simp only [hs]
    rw [if_neg (by omega), if_neg (by simp [h2.1, h2.2]), if_neg (by simp only [h3]; simp)]
    rcases hb : bwParsed q with _ | m
    · rw [hb] at h4; exact absurd h4 (by simp)
    · rw [hb] at h4
      simp only [decide_eq_true_eq] at h4
      simp only [hb]
      rw [if_neg (by omega), if_neg (by simp only [h5]; simp)]
      have hn : sizeVal q = n := by simp [sizeVal, hs]
      have hm : bwVal q = m := by simp [bwVal, hb]
      rw [hn, hm]

theorem fetch_valid_ok (q : Query) (enc : Encoder) (qr : QrMatrix)
    (hv : validQuery q = true) (he : enc (urlOf q) (ecOf q) = .ok qr) :
    fetch q enc =
      if formatOf q = "svg" then
        ⟨200, generateSVG qr (sizeVal q) (fgOf q) (bgOf q) (bwVal q), svgHeaders⟩
      else
        ⟨200, jsonBody (generateSVG qr (sizeVal q) (fgOf q) (bgOf q) (bwVal q)),
          jsonHeaders⟩ := by
  rw [fetch_valid q enc hv, he]

theorem fetch_congr (q q' : Query) (enc : Encoder)
    (h1 : sizeParsed q = sizeParsed q') (h2 : fgOf q = fgOf q') (h3 : bgOf q = bgOf q')
    (h4 : ecOf q = ecOf q') (h5 : bwParsed q = bwParsed q') (h6 : formatOf q = formatOf q')
    (h7 : urlOf q = urlOf q') : fetch q enc = fetch q' enc := by
  unfold fetch
  rw [h1, h2, h3, h4, h5, h6, h7]

/-! ### Claims -/

/-- C1 counterexample: a request that supplies `fgColor` with the empty
string — a value that fails the six-hex-digit validation rule — is not
answered with a 400: the handler substitutes the default (the JavaScript
`||` treats the empty string as absent) and answers 200, identically to
the request without the parameter. -/
theorem empty_param_not_rejected :
    isValidHexColor "" = false ∧
    (fetch { fgColor := some "" } encTest).status = 200 ∧
    fetch { fgColor := some "" } encTest = fetch ({} : Query) encTest := by
  refine ⟨by decide, rfl, rfl⟩

/-- C1 amended: defaults are applied when a parameter is absent or
supplied as the empty string (empty values behave exactly like absent
ones); for every request supplying a non-empty value that fails its
validation rule (fgColor, bgColor, ecLevel, format — once the earlier
validations pass), the handler answers 400 for that parameter rather
than substituting the default. -/
theorem invalid_nonempty_param_yields_400 (q : Query) (enc : Encoder) (s : String)
    (hs : s ≠ "") :
    (q.fgColor = some s → isValidHexColor s = false → sizeOK q = true →
      fetch q enc = ⟨400, colorMsg, []⟩) ∧
    (q.bgColor = some s → isValidHexColor s = false → sizeOK q = true →
      fetch q enc = ⟨400, colorMsg, []⟩) ∧
    (q.ecLevel = some s → (["L", "M", "Q", "H"].contains s) = false →
      sizeOK q = true → colorsOK q = true →
      fetch q enc = ⟨400, ecMsg, []⟩) ∧
    (q.format = some s → jsToLower s ≠ "" → (["svg", "png"].contains (jsToLower s)) = false →
      sizeOK q = true → colorsOK q = true → ecOK q = true → bwOK q = true →
      fetch q enc = ⟨400, fmtMsg, []⟩) ∧
    (∀ q' : Query,
      fetch { q' with url := some "" } enc = fetch { q' with url := none } enc ∧
      fetch { q' with fgColor := some "" } enc = fetch { q' with fgColor := none } enc ∧
      fetch { q' with bgColor := some "" } enc = fetch { q' with bgColor := none } enc ∧
      fetch { q' with ecLevel := some "" } enc = fetch { q' with ecLevel := none } enc ∧
      fetch { q' with format := some "" } enc = fetch { q' with format := none } enc) := by
  refine ⟨?_, ?_, ?_, ?_, ?_⟩
  · intro hq hinv h1
    have hfg : fgOf q = s := by simp [fgOf, orDefault, hq, hs]
    exact fetch_colorBad q enc h1 (by simp [colorsOK, hfg, hinv])
  · intro hq hinv h1
    have hbg : bgOf q = s := by simp [bgOf, orDefault, hq, hs]
    exact fetch_colorBad q enc h1 (by simp [colorsOK, hbg, hinv])
  · intro hq hinv h1 h2
    have hec : ecOf q = s := by simp [ecOf, orDefault, hq, hs]
    exact fetch_ecBad q enc h1 h2 (by simp only [ecOK, hec, hinv])
  · intro hq hlo hinv h1 h2 h3 h4
    have hfm : formatOf q = jsToLower s := by simp [formatOf, orDefault, hq, hlo]
    exact fetch_fmtBad q enc h1 h2 h3 h4 (by simp only [fmtOK, hfm, hinv])
  · intro q'
    exact ⟨fetch_congr _ _ enc rfl rfl rfl rfl rfl rfl rfl,
      fetch_congr _ _ enc rfl rfl rfl rfl rfl rfl rfl,
      fetch_congr _ _ enc rfl rfl rfl rfl rfl rfl rfl,
      fetch_congr _ _ enc rfl rfl rfl rfl rfl rfl rfl,
      fetch_congr _ _ enc rfl rfl rfl rfl rfl rfl rfl⟩

/-- C1 amended, witness at concrete inputs. -/
theorem invalid_nonempty_param_yields_400_witness :
    fetch { fgColor := some "ZZZZZZ" } encTest = ⟨400, colorMsg, []⟩ ∧
    fetch { ecLevel := some "x" } encTest = ⟨400, ecMsg, []⟩ ∧
    fetch { format := some "gif" } encTest = ⟨400, fmtMsg, []⟩ ∧
    fetch { fgColor := some "" } encTest = fetch { fgColor := none } encTest :=
  ⟨(invalid_nonempty_param_yields_400 _ encTest "ZZZZZZ" (by decide)).1 rfl (by decide)
      (by decide),
   (invalid_nonempty_param_yields_400 _ encTest "x" (by decide)).2.2.1 rfl (by decide)
      (by decide) (by decide),
   (invalid_nonempty_param_yields_400 _ encTest "gif" (by decide)).2.2.2.1 rfl (by decide)
      (by decide) (by decide) (by decide) (by decide) (by decide),
   ((invalid_nonempty_param_yields_400 {} encTest "-" (by decide)).2.2.2.2 {}).2.1⟩

/-- C2 counterexample: the 400 bodies are not exactly the parameter
messages of the spec — each carries the `Error: ` prefix.  At
`size=50` the body differs from `Size must be between 100 and 1000`,
and at `fgColor=ZZZZZZ` it differs from
`Invalid color format. Use hex format without #`. -/
theorem error_body_not_exact_message :
    (fetch { size := some "50" } encTest).status = 400 ∧
    (fetch { size := some "50" } encTest).body ≠ "Size must be between 100 and 1000" ∧
    (fetch { fgColor := some "ZZZZZZ" } encTest).body ≠
      "Invalid color format. Use hex format without #" := by
  refine ⟨rfl, by decide, by decide⟩

/-- C2 amended: on a validation failure the 400 body is exactly
`Error: ` followed by the parameter-named message: an out-of-range or
non-numeric size yields `Error: Size must be between 100 and 1000`, and
a malformed fgColor or bgColor yields
`Error: Invalid color format. Use hex format without #`. -/
theorem error_bodies_carry_error_marker (q : Query) (enc : Encoder) :
    (sizeOK q = false →
      fetch q enc = ⟨400, "Error: " ++ "Size must be between 100 and 1000", []⟩) ∧
    (sizeOK q = true → colorsOK q = false →
      fetch q enc =
        ⟨400, "Error: " ++ "Invalid color format. Use hex format without #", []⟩) := by
  constructor
  · intro h
    exact (fetch_sizeBad q enc h).trans (by decide)
  · intro h1 h2
    exact (fetch_colorBad q enc h1 h2).trans (by decide)

/-- C2 amended, witness at concrete inputs. -/
theorem error_bodies_carry_error_marker_witness :
    fetch { size := some "50" } encTest =
      ⟨400, "Error: " ++ "Size must be between 100 and 1000", []⟩ ∧
    fetch { fgColor := some "ZZZZZZ" } encTest =
      ⟨400, "Error: " ++ "Invalid color format. Use hex format without #", []⟩ :=
  ⟨(error_bodies_carry_error_marker _ encTest).1 (by decide),
   (error_bodies_carry_error_marker _ encTest).2 (by decide) (by decide)⟩

/-- C5: when every validation passes and the encoder fails, the handler
returns 500 with body `Error generating QR code: ` followed by the
thrown error's message, or by `Unknown error occurred` when the thrown
value carries no message.  The embedded handler is a total function:
every failure becomes a response, nothing escapes. -/
theorem encoder_failure_maps_to_500 (q : Query) (enc : Encoder) (e : Option String)
    (hv : validQuery q = true) (he : enc (urlOf q) (ecOf q) = .error e) :
    fetch q enc =
      ⟨500, "Error generating QR code: " ++ e.getD "Unknown error occurred", []⟩ := by
  rw [fetch_valid q enc hv, he]

/-- C5 witness: a message-carrying failure and a messageless one. -/
theorem encoder_failure_maps_to_500_witness :
    fetch {} encFailMsg = ⟨500, "Error generating QR code: code length overflow", []⟩ ∧
    fetch {} encFailNone = ⟨500, "Error generating QR code: Unknown error occurred", []⟩ :=
  ⟨(encoder_failure_maps_to_500 {} encFailMsg (some "code length overflow") (by decide)
      rfl).trans (by decide),
   (encoder_failure_maps_to_500 {} encFailNone none (by decide) rfl).trans (by decide)⟩

/-- C6: validation is first-failure-wins in source order — size, then
fgColor/bgColor, then ecLevel, then borderWidth, then format.  When any
validation fails, the response is the 400 of the earliest failing
parameter, and the result does not depend on the encoder: no encoding or
rendering is performed. -/
theorem validation_first_failure_wins (q : Query) (msg : String) (enc enc' : Encoder)
    (h : firstError q = some msg) :
    fetch q enc = ⟨400, msg, []⟩ ∧ fetch q enc = fetch q enc' := by
  have main : ∀ e : Encoder, fetch q e = ⟨400, msg, []⟩ := by
    intro e
    unfold firstError at h
    by_cases h1 : sizeOK q
    · rw [if_neg (by simp [h1])] at h
      by_cases h2 : colorsOK q
      · rw [if_neg (by simp [h2])] at h
        by_cases h3 : ecOK q
        · rw [if_neg (by simp [h3])] at h
          by_cases h4 : bwOK q
          · rw [if_neg (by simp [h4])] at h
            by_cases h5 : fmtOK q
            · rw [if_neg (by simp [h5])] at h
              exact absurd h (by simp)
            · have h5f : fmtOK q = false := by simpa using h5
              rw [if_pos (by simp [h5f])] at h
              injection h with h
              subst h
              exact fetch_fmtBad q e h1 h2 h3 h4 h5f
          · have h4f : bwOK q = false := by simpa using h4
            rw [if_pos (by simp [h4f])] at h
            injection h with h
            subst h
            exact fetch_bwBad q e h1 h2 h3 h4f
        · have h3f : ecOK q = false := by simpa using h3
          rw [if_pos (by simp [h3f])] at h
          injection h with h
          subst h
          exact fetch_ecBad q e h1 h2 h3f
      · have h2f : colorsOK q = false := by simpa using h2
        rw [if_pos (by simp [h2f])] at h
        injection h with h
        subst h
        exact fetch_colorBad q e h1 h2f
    · have h1f : sizeOK q = false := by simpa using h1
      rw [if_pos (by simp [h1f])] at h
      injection h with h
      subst h
      exact fetch_sizeBad q e h1f
  exact ⟨main enc, (main enc).trans (main enc').symm⟩

/-- C6 witness: both size and format invalid — the size message wins,
for any two encoders. -/
theorem validation_first_failure_wins_witness :
    fetch { size := some "5", format := some "gif" } encTest = ⟨400, sizeMsg, []⟩ ∧
    fetch { size := some "5", format := some "gif" } encTest =
      fetch { size := some "5", format := some "gif" } encFailMsg :=
  validation_first_failure_wins _ sizeMsg encTest encFailMsg (by decide)

/-- C7: the size range is inclusive at both ends: size 50 is rejected
with the size message, sizes 100 and 1000 are accepted (200 when the
encoder succeeds), and size 1001 is rejected. -/
theorem size_bounds_inclusive (enc : Encoder) (qr : QrMatrix)
    (he : enc "https://example.com" "M" = .ok qr) :
    fetch { size := some "50" } enc = ⟨400, "Error: Size must be between 100 and 1000", []⟩ ∧
    (fetch { size := some "100" } enc).status = 200 ∧
    (fetch { size := some "1000" } enc).status = 200 ∧
    fetch { size := some "1001" } enc =
      ⟨400, "Error: Size must be between 100 and 1000", []⟩ := by
  refine ⟨(fetch_sizeBad _ enc (by decide)).trans (by decide), ?_, ?_,
    (fetch_sizeBad _ enc (by decide)).trans (by decide)⟩
  · rw [fetch_valid_ok { size := some "100" } enc qr (by decide) he]
    split <;> rfl
  · rw [fetch_valid_ok { size := some "1000" } enc qr (by decide) he]
    split <;> rfl

/-- C7 witness at a concrete succeeding encoder. -/
theorem size_bounds_inclusive_witness :
    fetch { size := some "50" } encTest =
      ⟨400, "Error: Size must be between 100 and 1000", []⟩ ∧
    (fetch { size := some "100" } encTest).status = 200 ∧
    (fetch { size := some "1000" } encTest).status = 200 ∧
    fetch { size := some "1001" } encTest =
      ⟨400, "Error: Size must be between 100 and 1000", []⟩ :=
  size_bounds_inclusive encTest matTest rfl

/-- C9: the handler is deterministic — it is a pure function of the
query and the encoder, so equal queries yield equal responses and in
particular byte-identical bodies. -/
theorem handler_deterministic (q1 q2 : Query) (enc : Encoder) (h : q1 = q2) :
    fetch q1 enc = fetch q2 enc ∧ (fetch q1 enc).body = (fetch q2 enc).body := by
  subst h
  exact ⟨rfl, rfl⟩

/-- C9 witness at a concrete query. -/
theorem handler_deterministic_witness :
    fetch {} encTest = fetch {} encTest ∧ (fetch {} encTest).body = (fetch {} encTest).body :=
  handler_deterministic {} {} encTest rfl

/-! ### Renderer lemmas -/

theorem length_filterMap_guard {α β : Type} (p : α → Bool) (g : α → β) (l : List α) :
    (l.filterMap (fun a => if p a then some (g a) else none)).length =
      (l.filter p).length := by
  induction l with
  | nil => rfl
  | cons a t ih =>
    by_cases h : p a
    · simp [List.filterMap_cons, List.filter_cons, h, ih]
    · simp [List.filterMap_cons, List.filter_cons, h, ih]

theorem length_rectsFor (qr : QrMatrix) (ms : ℚ) (bw : ℤ) :
    (rectsFor qr ms bw).length = darkCount qr := by
  unfold rectsFor darkCount
  rw [List.length_flatMap]
  congr 1
  apply List.map_congr_left
  intro row _
  exact length_filterMap_guard (fun col => qr.isDark row col) _ _

theorem mem_rectsFor (qr : QrMatrix) (ms : ℚ) (bw : ℤ) (r : SvgRect) :
    r ∈ rectsFor qr ms bw ↔
      ∃ row col, row < qr.moduleCount ∧ col < qr.moduleCount ∧
        qr.isDark row col = true ∧
        r = ⟨((col : ℚ) + (bw : ℚ)) * ms, ((row : ℚ) + (bw : ℚ)) * ms, ms, ms⟩ := by
  unfold rectsFor
  simp only [List.mem_flatMap, List.mem_filterMap, List.mem_range]
  constructor
  · rintro ⟨row, hrow, col, hcol, hr⟩
    by_cases h : qr.isDark row col = true
    · rw [if_pos h] at hr
      injection hr with hr
      exact ⟨row, col, hrow, hcol, h, hr.symm⟩
    · rw [if_neg h] at hr
      exact absurd hr (by simp)
  · rintro ⟨row, col, h1, h2, h3, h4⟩
    exact ⟨row, h1, col, h2, by rw [if_pos h3, h4]⟩

/-- C3: the SVG string is the header (declaring viewBox, width and
height all equal to `size`), the background rectangle, then exactly the
serialized foreground rectangles, one per dark cell — light cells emit
nothing; each rectangle sits at `((col+bw)·ms, (row+bw)·ms)` with side
`ms = size/(moduleCount+2·bw)`, hence lies within
`[bw·ms, (moduleCount+bw)·ms]` on each axis. -/
theorem svg_geometry (qr : QrMatrix) (size bw : ℤ) (fg bg : String)
    (hsize : 0 ≤ size) (hbw : 0 ≤ bw) :
    generateSVG qr size fg bg bw =
      svgHeader size ++ bgRectStr bg ++
        String.join ((rectsFor qr (moduleSizeQ size qr.moduleCount bw) bw).map
          (rectStr fg)) ++ "</svg>" ∧
    (rectsFor qr (moduleSizeQ size qr.moduleCount bw) bw).length = darkCount qr ∧
    (∀ r ∈ rectsFor qr (moduleSizeQ size qr.moduleCount bw) bw,
      r.w = moduleSizeQ size qr.moduleCount bw ∧
      r.h = moduleSizeQ size qr.moduleCount bw ∧
      (∃ row col, row < qr.moduleCount ∧ col < qr.moduleCount ∧
        qr.isDark row col = true ∧
        r.x = ((col : ℚ) + (bw : ℚ)) * moduleSizeQ size qr.moduleCount bw ∧
        r.y = ((row : ℚ) + (bw : ℚ)) * moduleSizeQ size qr.moduleCount bw) ∧
      (bw : ℚ) * moduleSizeQ size qr.moduleCount bw ≤ r.x ∧
      r.x + r.w ≤ ((qr.moduleCount : ℚ) + (bw : ℚ)) * moduleSizeQ size qr.moduleCount bw ∧
      (bw : ℚ) * moduleSizeQ size qr.moduleCount bw ≤ r.y ∧
      r.y + r.h ≤ ((qr.moduleCount : ℚ) + (bw : ℚ)) * moduleSizeQ size qr.moduleCount bw) := by
  set ms := moduleSizeQ size qr.moduleCount bw with hms_def
  have hbwq : (0 : ℚ) ≤ (bw : ℚ) := by exact_mod_cast hbw
  have hms : 0 ≤ ms := by
    rw [hms_def]
    unfold moduleSizeQ
    apply div_nonneg
    · exact_mod_cast hsize
    · have h1 : (0 : ℚ) ≤ (qr.moduleCount : ℚ) := Nat.cast_nonneg _
      nlinarith
  refine ⟨rfl, length_rectsFor qr ms bw, ?_⟩
  intro r hr
  rcases (mem_rectsFor qr ms bw r).mp hr with ⟨row, col, h1, h2, h3, h4⟩
  subst h4
  have hcolq : (col : ℚ) + 1 ≤ (qr.moduleCount : ℚ) := by exact_mod_cast h2
  have hrowq : (row : ℚ) + 1 ≤ (qr.moduleCount : ℚ) := by exact_mod_cast h1
  have hcol0 : (0 : ℚ) ≤ (col : ℚ) := Nat.cast_nonneg _
  have hrow0 : (0 : ℚ) ≤ (row : ℚ) := Nat.cast_nonneg _
  refine ⟨rfl, rfl, ⟨row, col, h1, h2, h3, rfl, rfl⟩, ?_, ?_, ?_, ?_⟩
  · exact mul_le_mul_of_nonneg_right (by linarith) hms
  · have : ((col : ℚ) + (bw : ℚ)) * ms + ms = ((col : ℚ) + (bw : ℚ) + 1) * ms := by ring
    rw [this]
    exact mul_le_mul_of_nonneg_right (by linarith) hms
  · exact mul_le_mul_of_nonneg_right (by linarith) hms
  · have : ((row : ℚ) + (bw : ℚ)) * ms + ms = ((row : ℚ) + (bw : ℚ) + 1) * ms := by ring
    rw [this]
    exact mul_le_mul_of_nonneg_right (by linarith) hms

/-- C3 witness at a concrete matrix and options. -/
theorem svg_geometry_witness :
    (rectsFor matTest (moduleSizeQ 300 matTest.moduleCount 4) 4).length = darkCount matTest ∧
    generateSVG matTest 300 "000000" "FFFFFF" 4 =
      svgHeader 300 ++ bgRectStr "FFFFFF" ++
        String.join ((rectsFor matTest (moduleSizeQ 300 matTest.moduleCount 4) 4).map
          (rectStr "000000")) ++ "</svg>" :=
  ⟨(svg_geometry matTest 300 4 "000000" "FFFFFF" (by decide) (by decide)).2.1,
   (svg_geometry matTest 300 4 "000000" "FFFFFF" (by decide) (by decide)).1⟩

/-- C8: a request with no query parameters is answered 200 with
Content-Type `image/svg+xml` and body the SVG rendered for text
`https://example.com` (passed to the encoder at level M) with size 300,
fgColor `000000`, bgColor `FFFFFF` and border width 4. -/
theorem no_params_default_svg (enc : Encoder) (qr : QrMatrix)
    (he : enc "https://example.com" "M" = .ok qr) :
    fetch {} enc = ⟨200, generateSVG qr 300 "000000" "FFFFFF" 4, svgHeaders⟩ ∧
    ("Content-Type", "image/svg+xml") ∈ svgHeaders := by
  constructor
  · rw [fetch_valid_ok {} enc qr (by decide) he]
    rfl
  · simp [svgHeaders]

/-- C8 witness at a concrete succeeding encoder. -/
theorem no_params_default_svg_witness :
    fetch {} encTest = ⟨200, generateSVG matTest 300 "000000" "FFFFFF" 4, svgHeaders⟩ ∧
    ("Content-Type", "image/svg+xml") ∈ svgHeaders :=
  no_params_default_svg encTest matTest rfl

/-! ### ASCII facts about the renderer's output -/

theorem asciiList_append {l1 l2 : List Char} (h1 : asciiList l1) (h2 : asciiList l2) :
    asciiList (l1 ++ l2) := by
  intro c hc
  rcases List.mem_append.mp hc with h | h
  · exact h1 c h
  · exact h2 c h

theorem asciiList_of_all (l : List Char)
    (h : l.all (fun c => decide (c.toNat < 128)) = true) : asciiList l := by
  intro c hc
  simpa using List.all_eq_true.mp h c hc

theorem digitChar_ascii (d : ℕ) (h : d < 10) : (Nat.digitChar d).toNat < 128 := by
  have h10 : ∀ m : Fin 10, (Nat.digitChar (m : ℕ)).toNat < 128 := by decide
  exact h10 ⟨d, h⟩

theorem natChars_ascii (n : ℕ) : asciiList (natChars n) := by
  induction n using Nat.strong_induction_on with
  | _ n ih =>
    intro c hc
    by_cases h : n < 10
    · rw [natChars, dif_pos h] at hc
      simp only [List.mem_singleton] at hc
      subst hc
      exact digitChar_ascii n h
    · rw [natChars, dif_neg h] at hc
      rcases List.mem_append.mp hc with hc | hc
      · exact ih (n / 10) (Nat.div_lt_self (by omega) (by omega)) c hc
      · simp only [List.mem_singleton] at hc
        subst hc
        exact digitChar_ascii _ (Nat.mod_lt _ (by omega))

theorem natStr_ascii (n : ℕ) : asciiList (natStr n).data := natChars_ascii n

theorem intStr_ascii (i : ℤ) : asciiList (intStr i).data := by
  unfold intStr
  split
  · rw [String.data_append]
    exact asciiList_append (asciiList_of_all _ (by decide)) (natStr_ascii _)
  · exact natStr_ascii _

theorem numStr_ascii (q : ℚ) : asciiList (numStr q).data := by
  unfold numStr
  split
  · exact intStr_ascii _
  · simp only [String.data_append]
    exact asciiList_append (asciiList_append (intStr_ascii _)
      (asciiList_of_all _ (by decide))) (natStr_ascii _)

theorem hexColor_ascii (s : String) (h : isValidHexColor s = true) :
    asciiList s.data := by
  unfold isValidHexColor at h
  rw [Bool.and_eq_true] at h
  intro c hc
  have hx := List.all_eq_true.mp h.2 c hc
  simp only [isHexDigit, isDecDigit, Bool.or_eq_true, Bool.and_eq_true,
    decide_eq_true_eq] at hx
  omega

theorem rectStr_ascii (fg : String) (hfg : asciiList fg.data) (r : SvgRect) :
    asciiList (rectStr fg r).data := by
  unfold rectStr
  simp only [String.data_append]
  repeat
    first
    | exact hfg
    | exact numStr_ascii _
    | exact asciiList_of_all _ (by decide)
    | apply asciiList_append

theorem asciiList_foldl_append (l : List String) (init : String)
    (hi : asciiList init.data) (h : ∀ s ∈ l, asciiList s.data) :
    asciiList (l.foldl (fun r s => r ++ s) init).data := by
  induction l generalizing init with
  | nil => simpa using hi
  | cons s t ih =>
    simp only [List.foldl_cons]
    apply ih
    · rw [String.data_append]
      exact asciiList_append hi (h s (by simp))
    · intro x hx
      exact h x (by simp [hx])

theorem asciiList_join (l : List String) (h : ∀ s ∈ l, asciiList s.data) :
    asciiList (String.join l).data := by
  unfold String.join
  exact asciiList_foldl_append l "" (by intro c hc; simp at hc) h

theorem generateSVG_ascii (qr : QrMatrix) (size : ℤ) (fg bg : String) (bw : ℤ)
    (hfg : asciiList fg.data) (hbg : asciiList bg.data) :
    asciiList (generateSVG qr size fg bg bw).data := by
  unfold generateSVG svgHeader bgRectStr
  simp only [String.data_append]
  repeat
    first
    | exact hfg
    | exact hbg
    | exact intStr_ascii _
    | exact asciiList_join _ (fun s hs => by
        rcases List.mem_map.mp hs with ⟨r, _, rfl⟩
        exact rectStr_ascii fg hfg r)
    | exact asciiList_of_all _ (by decide)
    | apply asciiList_append

/-! ### Percent-encoding round-trip -/

theorem isUnreservedURI_ne_37 (c : Char) (h : isUnreservedURI c = true) :
    c.toNat ≠ 37 := by
  unfold isUnreservedURI at h
  simp at h
  omega

theorem hexVal_hexUpper (m : ℕ) (h : m < 16) : hexVal (hexUpper m) = some m := by
  have h16 : ∀ k : Fin 16, hexVal (hexUpper (k : ℕ)) = some (k : ℕ) := by decide
  exact h16 ⟨m, h⟩

theorem utf8Bytes_ascii (c : Char) (h : c.toNat < 128) : utf8Bytes c = [c.toNat] := by
  simp [utf8Bytes, h]

theorem pctDecode_flatMap_encodeChar (l : List Char) (h : asciiList l) :
    pctDecode (l.flatMap encodeChar) = some l := by
  induction l with
  | nil => simp [pctDecode]
  | cons c t ih =>
    have hc : c.toNat < 128 := h c (by simp)
    have ht : asciiList t := fun x hx => h x (by simp [hx])
    rw [List.flatMap_cons]
    by_cases hu : isUnreservedURI c = true
    · rw [encodeChar, if_pos hu, List.singleton_append]
      simp only [pctDecode]
      rw [if_neg (by simpa using isUnreservedURI_ne_37 c hu)]
      rw [ih ht]
      rfl
    · rw [encodeChar, if_neg hu, utf8Bytes_ascii c hc]
      have hfm : ([c.toNat].flatMap pctEncodeByte) = pctEncodeByte c.toNat := by simp
      rw [hfm]
      unfold pctEncodeByte
      rw [List.cons_append, List.cons_append, List.cons_append, List.nil_append]
      simp only [pctDecode]
      rw [if_pos (by decide)]
      simp only [pctDecodeEsc]
      have hv1 : hexVal (hexUpper (c.toNat / 16)) = some (c.toNat / 16) :=
        hexVal_hexUpper _ (by omega)
      have hv2 : hexVal (hexUpper (c.toNat % 16)) = some (c.toNat % 16) :=
        hexVal_hexUpper _ (Nat.mod_lt _ (by omega))
      rw [hv1, hv2, ih ht]
      show (if 16 * (c.toNat / 16) + c.toNat % 16 < 128 then
        some (Char.ofNat (16 * (c.toNat / 16) + c.toNat % 16) :: t) else none) =
        some (c :: t)
      have hn : 16 * (c.toNat / 16) + c.toNat % 16 = c.toNat := Nat.div_add_mod _ 16
      rw [hn, if_pos hc, Char.ofNat_toNat]

theorem pctDecode_encodeURIComponent (s : String) (h : asciiList s.data) :
    pctDecode (encodeURIComponent s).data = some s.data :=
  pctDecode_flatMap_encodeChar s.data h

/-- C4: a valid request with format png is answered 200 with a JSON
body whose dataUrl field is `data:image/svg+xml;charset=UTF-8,` followed
by the percent-encoded SVG, and percent-decoding that remainder yields
exactly the body the same request with format svg would return. -/
theorem png_roundtrips_svg (q : Query) (enc : Encoder) (qr : QrMatrix)
    (hv : validQuery q = true) (hf : formatOf q = "png")
    (he : enc (urlOf q) (ecOf q) = .ok qr) :
    (fetch q enc).status = 200 ∧
    ("Content-Type", "application/json") ∈ (fetch q enc).headers ∧
    (fetch q enc).body =
      "\x7b\"dataUrl\":\"" ++ ("data:image/svg+xml;charset=UTF-8," ++
        encodeURIComponent (fetch { q with format := some "svg" } enc).body) ++
        "\"\x7d" ∧
    pctDecode (encodeURIComponent (fetch { q with format := some "svg" } enc).body).data =
      some (fetch { q with format := some "svg" } enc).body.data := by
  have hv' : validQuery { q with format := some "svg" } = true := by
    simp only [validQuery, Bool.and_eq_true] at hv ⊢
    exact ⟨⟨⟨⟨hv.1.1.1.1, hv.1.1.1.2⟩, hv.1.1.2⟩, hv.1.2⟩, rfl⟩
  have hb' : fetch { q with format := some "svg" } enc =
      ⟨200, generateSVG qr (sizeVal q) (fgOf q) (bgOf q) (bwVal q), svgHeaders⟩ := by
    rw [fetch_valid_ok { q with format := some "svg" } enc qr hv' he]
    have hfmt : formatOf { q with format := some "svg" } = "svg" := rfl
    rw [if_pos hfmt]
    rfl
  have hbq : fetch q enc =
      ⟨200, jsonBody (generateSVG qr (sizeVal q) (fgOf q) (bgOf q) (bwVal q)),
        jsonHeaders⟩ := by
    rw [fetch_valid_ok q enc qr hv he, if_neg (by simp [hf])]
  have hcolors : colorsOK q = true := by
    simp only [validQuery, Bool.and_eq_true] at hv
    exact hv.1.1.1.2
  unfold colorsOK at hcolors
  rw [Bool.and_eq_true] at hcolors
  have hsvgA : asciiList (generateSVG qr (sizeVal q) (fgOf q) (bgOf q) (bwVal q)).data :=
    generateSVG_ascii qr _ _ _ _ (hexColor_ascii _ (by exact hcolors.1))
      (hexColor_ascii _ (by exact hcolors.2))
  rw [hbq, hb']
  exact ⟨rfl, by simp [jsonHeaders], rfl, pctDecode_encodeURIComponent _ hsvgA⟩

/-- C4 witness at a concrete request and encoder. -/
theorem png_roundtrips_svg_witness :
    (fetch { format := some "png" } encTest).status = 200 ∧
    ("Content-Type", "application/json") ∈ (fetch { format := some "png" } encTest).headers ∧
    (fetch { format := some "png" } encTest).body =
      "\x7b\"dataUrl\":\"" ++ ("data:image/svg+xml;charset=UTF-8," ++
        encodeURIComponent (fetch { format := some "svg" } encTest).body) ++
        "\"\x7d" ∧
    pctDecode (encodeURIComponent (fetch { format := some "svg" } encTest).body).data =
      some (fetch { format := some "svg" } encTest).body.data :=
  png_roundtrips_svg { format := some "png" } encTest matTest (by decide) (by decide) rfl

/-! ### `parseInt` on digits-then-junk inputs -/

theorem takeWhile_append_digits (ds rest : List Char)
    (hds : ∀ c ∈ ds, isDecDigit c = true)
    (hrest : rest.head?.all (fun c => !isDecDigit c) = true) :
    (ds ++ rest).takeWhile isDecDigit = ds := by
  induction ds with
  | nil =>
    cases rest with
    | nil => rfl
    | cons r t =>
      have hr : isDecDigit r = false := by simpa using hrest
      simp [List.takeWhile_cons, hr]
  | cons d t ih =>
    have hd := hds d (by simp)
    simp only [List.cons_append, List.takeWhile_cons, hd, if_true]
    rw [ih (fun c hc => hds c (by simp [hc]))]

theorem decVal_single (d : Char) : decVal [d] = d.toNat - 48 := by
  simp [decVal]

theorem parseIntCore_digits (ds rest : List Char)
    (hne : ds ≠ []) (hds : ∀ c ∈ ds, isDecDigit c = true)
    (hrest : rest.head?.all (fun c => !isDecDigit c) = true)
    (hlo : 100 ≤ decVal ds) :
    parseIntCore (ds ++ rest) = some (decVal ds) := by
  obtain ⟨d0, ds', rfl⟩ := List.exists_cons_of_ne_nil hne
  have hd0 := hds d0 (by simp)
  have hd0n : 48 ≤ d0.toNat ∧ d0.toNat ≤ 57 := by
    simpa [isDecDigit] using hd0
  have htake : ((d0 :: ds') ++ rest).takeWhile isDecDigit = d0 :: ds' :=
    takeWhile_append_digits _ _ hds hrest
  cases ds' with
  | nil =>
    cases rest with
    | nil =>
      show (if ([d0] : List Char).takeWhile isDecDigit = [] then none
        else some (decVal (([d0] : List Char).takeWhile isDecDigit))) = some (decVal [d0])
      simp [List.takeWhile_cons, hd0]
    | cons r t =>
      show (if d0.toNat = 48 ∧ (r.toNat = 120 ∨ r.toNat = 88) then
          (if (t.takeWhile isHexDigit) = [] then none else some (hexAccum (t.takeWhile isHexDigit)))
        else (if ((d0 :: r :: t).takeWhile isDecDigit) = [] then none
          else some (decVal ((d0 :: r :: t).takeWhile isDecDigit)))) = some (decVal [d0])
      rw [if_neg ?hnothex]
      case hnothex =>
        rintro ⟨h48, -⟩
        rw [decVal_single, h48] at hlo
        omega
      rw [List.singleton_append] at htake
      rw [htake]
      simp
  | cons d1 ds'' =>
    have hd1 := hds d1 (by simp)
    have hd1n : 48 ≤ d1.toNat ∧ d1.toNat ≤ 57 := by
      simpa [isDecDigit] using hd1
    show (if d0.toNat = 48 ∧ (d1.toNat = 120 ∨ d1.toNat = 88) then
        (if ((ds'' ++ rest).takeWhile isHexDigit) = [] then none
          else some (hexAccum ((ds'' ++ rest).takeWhile isHexDigit)))
      else (if ((d0 :: d1 :: (ds'' ++ rest)).takeWhile isDecDigit) = [] then none
        else some (decVal ((d0 :: d1 :: (ds'' ++ rest)).takeWhile isDecDigit)))) =
      some (decVal (d0 :: d1 :: ds''))
    rw [if_neg (by rintro ⟨-, h | h⟩ <;> omega)]
    rw [show d0 :: d1 :: (ds'' ++ rest) = (d0 :: d1 :: ds'') ++ rest from rfl]
    rw [htake]
    simp

theorem parseIntJS_digits (ds rest : List Char)
    (hne : ds ≠ []) (hds : ∀ c ∈ ds, isDecDigit c = true)
    (hrest : rest.head?.all (fun c => !isDecDigit c) = true)
    (hlo : 100 ≤ decVal ds) :
    parseIntJS (String.mk (ds ++ rest)) = some ((decVal ds : ℕ) : ℤ) := by
  obtain ⟨d0, ds', rfl⟩ := List.exists_cons_of_ne_nil hne
  have hd0 := hds d0 (by simp)
  have hd0n : 48 ≤ d0.toNat ∧ d0.toNat ≤ 57 := by
    simpa [isDecDigit] using hd0
  have hdrop : (d0 :: (ds' ++ rest)).dropWhile isJsSpace = d0 :: (ds' ++ rest) := by
    rw [List.dropWhile_cons, if_neg]
    simp only [isJsSpace]
    simp
    omega
  unfold parseIntJS
  rw [show (String.mk ((d0 :: ds') ++ rest)).data = d0 :: (ds' ++ rest) from rfl, hdrop]
  show (if d0.toNat = 45 then (parseIntCore (ds' ++ rest)).map (fun n => -(Int.ofNat n))
    else if d0.toNat = 43 then (parseIntCore (ds' ++ rest)).map Int.ofNat
    else (parseIntCore (d0 :: (ds' ++ rest))).map Int.ofNat) =
    some ((decVal (d0 :: ds') : ℕ) : ℤ)
  rw [if_neg (by omega), if_neg (by omega)]
  rw [show (d0 :: (ds' ++ rest)) = (d0 :: ds') ++ rest from rfl]
  rw [parseIntCore_digits _ rest hne hds hrest hlo]
  rfl

/-- C10: size (and border width) are parsed with JavaScript parseInt,
a leading-prefix integer parse: a value whose leading decimal digits
form an in-range integer is accepted with that integer even when
followed by non-numeric trailing characters or a fractional part, e.g.
`size=300abc` is treated as size 300 and `size=150.9` as size 150. -/
theorem parseInt_accepts_trailing_junk (ds rest : List Char) (enc : Encoder)
    (qr : QrMatrix) (hne : ds ≠ []) (hds : ds.all isDecDigit = true)
    (hrest : rest.head?.all (fun c => !isDecDigit c) = true)
    (hlo : 100 ≤ decVal ds) (hhi : decVal ds ≤ 1000)
    (he : enc "https://example.com" "M" = .ok qr) :
    parseIntJS (String.mk (ds ++ rest)) = some ((decVal ds : ℕ) : ℤ) ∧
    fetch { size := some (String.mk (ds ++ rest)) } enc =
      ⟨200, generateSVG qr ((decVal ds : ℕ) : ℤ) "000000" "FFFFFF" 4, svgHeaders⟩ ∧
    parseIntJS "300abc" = some 300 ∧
    parseIntJS "150.9" = some 150 := by
  have hds' : ∀ c ∈ ds, isDecDigit c = true := fun c hc => List.all_eq_true.mp hds c hc
  have hparse := parseIntJS_digits ds rest hne hds' hrest hlo
  have hS : String.mk (ds ++ rest) ≠ "" := by
    obtain ⟨d0, ds', rfl⟩ := List.exists_cons_of_ne_nil hne
    intro hE
    have := congrArg String.data hE
    simp at this
  have hsp : sizeParsed { size := some (String.mk (ds ++ rest)) } =
      some ((decVal ds : ℕ) : ℤ) := by
    show (if String.mk (ds ++ rest) = "" then some 300
      else parseIntJS (String.mk (ds ++ rest))) = some ((decVal ds : ℕ) : ℤ)
    rw [if_neg hS, hparse]
  have hv : validQuery { size := some (String.mk (ds ++ rest)) } = true := by
    simp only [validQuery, Bool.and_eq_true]
    refine ⟨⟨⟨⟨?_, rfl⟩, rfl⟩, rfl⟩, rfl⟩
    unfold sizeOK
    rw [hsp]
    simp only [decide_eq_true_eq]
    constructor
    · exact_mod_cast hlo
    · exact_mod_cast hhi
  refine ⟨hparse, ?_, by decide, by decide⟩
  rw [fetch_valid_ok _ enc qr hv he]
  have hfmt : formatOf { size := some (String.mk (ds ++ rest)) } = "svg" := rfl
  rw [if_pos hfmt]
  have hsv : sizeVal { size := some (String.mk (ds ++ rest)) } =
      ((decVal ds : ℕ) : ℤ) := by
    unfold sizeVal
    rw [hsp]
    rfl
  rw [hsv]
  rfl

/-- C10 witness: the concrete inputs `300abc` and `150.9`. -/
theorem parseInt_accepts_trailing_junk_witness :
    parseIntJS (String.mk (['3', '0', '0'] ++ ['a', 'b', 'c'])) =
      some ((decVal ['3', '0', '0'] : ℕ) : ℤ) ∧
    fetch { size := some (String.mk (['3', '0', '0'] ++ ['a', 'b', 'c'])) } encTest =
      ⟨200, generateSVG matTest ((decVal ['3', '0', '0'] : ℕ) : ℤ) "000000" "FFFFFF" 4,
        svgHeaders⟩ ∧
    parseIntJS "300abc" = some 300 ∧
    parseIntJS "150.9" = some 150 :=
  parseInt_accepts_trailing_junk ['3', '0', '0'] ['a', 'b', 'c'] encTest matTest
    (by decide) (by decide) (by decide) (by decide) (by decide) rfl

end QRGen
